import Mathlib

/-!
A verification development for the `Server_status` repository (a fleet-telemetry
agent).  The Python client under `src/client/` is shallowly embedded: pure
functions become Lean functions, the stateful `StateManager` together with the
files and module-level configuration it touches becomes explicit state passing
over a record type, SQLite tables become lists of records, and wall-clock reads
(`time.time()`, `datetime.now()`) become explicit parameters.  Machine integers
are `Int`/`Nat` (Python integers are unbounded, so no wrap-around modelling is
needed); 32-bit arithmetic inside SHA-256 is `Nat` with explicit masking.
-/

namespace ServerStatus

/-! ## timing_config.py

`SLEEP_RETRY_INTERVALS` is a dict `{0: 0, 1: 60, 2: 120, "default": 300}`;
`get_sleep_retry_interval(retry_count)` looks the count up with the `"default"`
entry as fallback.  The dict is embedded as a partial map from the integer keys
plus the separate default entry. -/

def SLEEP_RETRY_INTERVALS (retry_count : Nat) : Option Nat :=
  if retry_count = 0 then some 0
  else if retry_count = 1 then some 60
  else if retry_count = 2 then some 120
  else none

def SLEEP_RETRY_INTERVALS_default : Nat := 300

def get_sleep_retry_interval (retry_count : Nat) : Nat :=
  (SLEEP_RETRY_INTERVALS retry_count).getD SLEEP_RETRY_INTERVALS_default

/-! ## cache.py — the durable local queue

The SQLite table `metrics (id INTEGER PRIMARY KEY AUTOINCREMENT, timestamp,
data, sent)` is embedded as a list of records kept in insertion order together
with the next value of the autoincrement counter (SQLite's AUTOINCREMENT starts
at 1).  `save` mirrors the INSERT, `get_unsent` the
`SELECT ... WHERE sent = 0 ORDER BY id LIMIT ?`, `mark_sent` the batched
UPDATE (with its early return on an empty id list), and `prune` the
`DELETE ... WHERE timestamp < threshold`. -/

structure QueueRecord (α : Type) where
  id : Nat
  timestamp : Int
  data : α
  sent : Bool
deriving DecidableEq, Repr

structure CacheDB (α : Type) where
  records : List (QueueRecord α)
  next_id : Nat
deriving DecidableEq, Repr

namespace Cache

def emptyDB (α : Type) : CacheDB α := ⟨[], 1⟩

def save (now : Int) (data : α) (db : CacheDB α) : CacheDB α :=
  { records := db.records ++ [⟨db.next_id, now, data, false⟩]
    next_id := db.next_id + 1 }

def get_unsent (limit : Nat) (db : CacheDB α) : List (QueueRecord α) :=
  (db.records.filter (fun r => r.sent == false)).take limit

def mark_sent (ids : List Nat) (db : CacheDB α) : CacheDB α :=
  if ids = [] then db
  else { db with
         records := db.records.map (fun r =>
           if r.id ∈ ids then { r with sent := true } else r) }

def prune (max_age_seconds : Int) (now : Int) (db : CacheDB α) : CacheDB α :=
  let threshold := now - max_age_seconds
  { db with records := db.records.filter (fun r => !(r.timestamp < threshold)) }

/-- Well-formedness of the embedded table: record ids strictly increase in
list (= insertion) order, and all ids are below the autoincrement counter.
This is exactly what SQLite's `INTEGER PRIMARY KEY AUTOINCREMENT` guarantees
for a table only ever touched by the operations above. -/
def WF (db : CacheDB α) : Prop :=
  db.records.Pairwise (fun r s => r.id < s.id) ∧
  ∀ r ∈ db.records, r.id < db.next_id

instance (db : CacheDB α) [DecidableEq α] : Decidable (WF db) := by
  unfold WF; infer_instance

end Cache

/-! ## identity.py — credential derivation

`generate_token(uuid_str)` computes
`base64.urlsafe_b64encode(hmac.new(secret, uuid, sha256).digest()).rstrip('=')`
with `secret = SERVER_SECRET_KEY.encode('utf-8')`.  The whole pipeline —
UTF-8 encoding, SHA-256, HMAC, URL-safe base64, `'='`-stripping — is embedded
executably below; bytes are `Nat` values below 256 and 32-bit words are `Nat`
values masked to 32 bits. -/

namespace Crypto

def mask32 : Nat := 0xffffffff

def add32 (a b : Nat) : Nat := (a + b) % 4294967296

def rotr32 (n x : Nat) : Nat := ((x >>> n) ||| (x <<< (32 - n))) &&& mask32

def bsig0 (x : Nat) : Nat := rotr32 2 x ^^^ rotr32 13 x ^^^ rotr32 22 x

def bsig1 (x : Nat) : Nat := rotr32 6 x ^^^ rotr32 11 x ^^^ rotr32 25 x

def ssig0 (x : Nat) : Nat := rotr32 7 x ^^^ rotr32 18 x ^^^ (x >>> 3)

def ssig1 (x : Nat) : Nat := rotr32 17 x ^^^ rotr32 19 x ^^^ (x >>> 10)

def chFn (e f g : Nat) : Nat := (e &&& f) ^^^ ((e ^^^ mask32) &&& g)

def majFn (a b c : Nat) : Nat := (a &&& b) ^^^ (a &&& c) ^^^ (b &&& c)

/-- The 64 SHA-256 round constants of FIPS 180-4 (as decimal literals). -/
def K : List Nat :=
  [1116352408, 1899447441, 3049323471, 3921009573, 961987163,
   1508970993, 2453635748, 2870763221, 3624381080, 310598401,
   607225278, 1426881987, 1925078388, 2162078206, 2614888103,
   3248222580, 3835390401, 4022224774, 264347078, 604807628,
   770255983, 1249150122, 1555081692, 1996064986, 2554220882,
   2821834349, 2952996808, 3210313671, 3336571891, 3584528711,
   113926993, 338241895, 666307205, 773529912, 1294757372,
   1396182291, 1695183700, 1986661051, 2177026350, 2456956037,
   2730485921, 2820302411, 3259730800, 3345764771, 3516065817,
   3600352804, 4094571909, 275423344, 430227734, 506948616,
   659060556, 883997877, 958139571, 1322822218, 1537002063,
   1747873779, 1955562222, 2024104815, 2227730452, 2361852424,
   2428436474, 2756734187, 3204031479, 3329325298]

/-- The eight working variables of the compression function. -/
structure Hash8 where
  a : Nat
  b : Nat
  c : Nat
  d : Nat
  e : Nat
  f : Nat
  g : Nat
  h : Nat
deriving DecidableEq, Repr

def initH : Hash8 :=
  ⟨1779033703, 3144134277, 1013904242, 2773480762,
   1359893119, 2600822924, 528734635, 1541459225⟩

/-- Extend the 16 block words to the full 64-entry message schedule
(`steps` counts the 48 remaining entries to generate). -/
def extendW : Nat → List Nat → List Nat
  | 0, w => w
  | steps + 1, w =>
    let n := w.length
    let next :=
      add32 (add32 (ssig1 (w.getD (n - 2) 0)) (w.getD (n - 7) 0))
            (add32 (ssig0 (w.getD (n - 15) 0)) (w.getD (n - 16) 0))
    extendW steps (w ++ [next])

def compressStep (hv : Hash8) (kw : Nat × Nat) : Hash8 :=
  let t1 := add32 hv.h (add32 (bsig1 hv.e) (add32 (chFn hv.e hv.f hv.g) (add32 kw.1 kw.2)))
  let t2 := add32 (bsig0 hv.a) (majFn hv.a hv.b hv.c)
  ⟨add32 t1 t2, hv.a, hv.b, hv.c, add32 hv.d t1, hv.e, hv.f, hv.g⟩

def compressBlock (hv : Hash8) (block : List Nat) : Hash8 :=
  let w := extendW 48 block
  let z := (K.zip w).foldl compressStep hv
  ⟨add32 hv.a z.a, add32 hv.b z.b, add32 hv.c z.c, add32 hv.d z.d,
   add32 hv.e z.e, add32 hv.f z.f, add32 hv.g z.g, add32 hv.h z.h⟩

/-- Group a byte list into big-endian 32-bit words (a multiple of 4 bytes is
assumed, which padding guarantees). -/
def bytesToWords : List Nat → List Nat
  | b0 :: b1 :: b2 :: b3 :: rest =>
    ((((b0 <<< 8) ||| b1) <<< 8 ||| b2) <<< 8 ||| b3) :: bytesToWords rest
  | _ => []

/-- Run the compression function over consecutive 16-word blocks. -/
def compressAll (hv : Hash8) : List Nat → Hash8
  | w0 :: w1 :: w2 :: w3 :: w4 :: w5 :: w6 :: w7 ::
    w8 :: w9 :: w10 :: w11 :: w12 :: w13 :: w14 :: w15 :: rest =>
    compressAll (compressBlock hv
      [w0, w1, w2, w3, w4, w5, w6, w7, w8, w9, w10, w11, w12, w13, w14, w15]) rest
  | _ => hv

/-- SHA-256 padding: append `0x80`, zero bytes up to 56 mod 64, then the
64-bit big-endian bit length. -/
def padMessage (msg : List Nat) : List Nat :=
  let len := msg.length
  let bitLen := len * 8
  let zeros := (120 - ((len + 1) % 64)) % 64
  msg ++ [0x80] ++ List.replicate zeros 0 ++
    [(bitLen >>> 56) &&& 255, (bitLen >>> 48) &&& 255, (bitLen >>> 40) &&& 255,
     (bitLen >>> 32) &&& 255, (bitLen >>> 24) &&& 255, (bitLen >>> 16) &&& 255,
     (bitLen >>> 8) &&& 255, bitLen &&& 255]

/-- The four big-endian bytes of a 32-bit word. -/
def wordBytes (w : Nat) : List Nat :=
  [(w >>> 24) &&& 255, (w >>> 16) &&& 255, (w >>> 8) &&& 255, w &&& 255]

/-- SHA-256 of a byte list, as the 32-byte digest. -/
def sha256 (msg : List Nat) : List Nat :=
  let z := compressAll initH (bytesToWords (padMessage msg))
  wordBytes z.a ++ wordBytes z.b ++ wordBytes z.c ++ wordBytes z.d ++
  wordBytes z.e ++ wordBytes z.f ++ wordBytes z.g ++ wordBytes z.h

/-- HMAC-SHA256 (`hmac.new(key, msg, hashlib.sha256).digest()`): hash an
over-long key, zero-pad to the 64-byte block size, then the nested
ipad/opad hashes. -/
def hmac_sha256 (key msg : List Nat) : List Nat :=
  let k0 := if 64 < key.length then sha256 key else key
  let kpad := k0 ++ List.replicate (64 - k0.length) 0
  let ipadKey := kpad.map (fun b => b ^^^ 0x36)
  let opadKey := kpad.map (fun b => b ^^^ 0x5c)
  sha256 (opadKey ++ sha256 (ipadKey ++ msg))

/-- The URL-safe base64 alphabet (`-` and `_` instead of `+` and `/`). -/
def b64Table : List Char :=
  "ABCDEFGHIJKLMNOPQRSTUVWXYZabcdefghijklmnopqrstuvwxyz0123456789-_".data

def b64Char (n : Nat) : Char := b64Table.getD n 'A'

/-- `base64.urlsafe_b64encode` on a byte list, producing the padded
character stream. -/
def b64encode : List Nat → List Char
  | b0 :: b1 :: b2 :: rest =>
    b64Char (b0 >>> 2) :: b64Char (((b0 &&& 3) <<< 4) ||| (b1 >>> 4)) ::
    b64Char (((b1 &&& 15) <<< 2) ||| (b2 >>> 6)) :: b64Char (b2 &&& 63) ::
    b64encode rest
  | [b0, b1] =>
    [b64Char (b0 >>> 2), b64Char (((b0 &&& 3) <<< 4) ||| (b1 >>> 4)),
     b64Char ((b1 &&& 15) <<< 2), '=']
  | [b0] =>
    [b64Char (b0 >>> 2), b64Char ((b0 &&& 3) <<< 4), '=', '=']
  | [] => []

/-- `str.rstrip('=')` on a character list. -/
def rstripEq (cs : List Char) : List Char :=
  (cs.reverse.dropWhile (fun c => c == '=')).reverse

/-- UTF-8 encoding of one character (`str.encode('utf-8')`, per code point). -/
def utf8Char (c : Char) : List Nat :=
  let n := c.toNat
  if n < 0x80 then [n]
  else if n < 0x800 then
    [0xC0 ||| (n >>> 6), 0x80 ||| (n &&& 0x3F)]
  else if n < 0x10000 then
    [0xE0 ||| (n >>> 12), 0x80 ||| ((n >>> 6) &&& 0x3F), 0x80 ||| (n &&& 0x3F)]
  else
    [0xF0 ||| (n >>> 18), 0x80 ||| ((n >>> 12) &&& 0x3F),
     0x80 ||| ((n >>> 6) &&& 0x3F), 0x80 ||| (n &&& 0x3F)]

def utf8Bytes (s : String) : List Nat := (s.data.map utf8Char).flatten

end Crypto

/-- `identity.generate_token(uuid_str)`, with the module-level
`SERVER_SECRET_KEY` (read from the environment, `""` when unset) made an
explicit first argument:
`base64.urlsafe_b64encode(hmac.new(secret, uuid, sha256).digest()).rstrip('=')`. -/
def generate_token (SERVER_SECRET_KEY : String) (uuid_str : String) : String :=
  let secret := Crypto.utf8Bytes SERVER_SECRET_KEY
  let digest := Crypto.hmac_sha256 secret (Crypto.utf8Bytes uuid_str)
  String.mk (Crypto.rstripEq (Crypto.b64encode digest))

/-! ## config.py — RUNTIME_CONFIG

`RUNTIME_CONFIG` is a module-level dict seeded from `DEFAULT_CONFIG` and
mutated piecewise.  The keys the verified claims touch are embedded as record
fields; for `auth_token`, `server_id` and `report_url` — the keys
`StateManager._clear_auth_info` pops — `none` stands for "key absent from the
dict" (`DEFAULT_CONFIG` carries `server_id: None` and a default `report_url`;
`auth_token` only appears once registration stores it).  A monitor item is the
per-family sub-dict of `monitor_items`. -/

structure MonitorItem where
  enabled : Bool
  collect_temp : Bool := true
  collect_power : Bool := true
  paths : List String := []
deriving DecidableEq, Repr

/-- `monitor_config.py` schedule sub-dict for SCHEDULED mode; `none` stands
for a missing (or empty, hence falsy) `start_time`/`end_time` entry. -/
structure Schedule where
  days : List String
  start_time : Option String
  end_time : Option String
deriving DecidableEq, Repr

/-- The `countdown` sub-dict for COUNTDOWN mode, abstracted at the
`datetime.fromisoformat` boundary: an empty dict, a missing/falsy
`end_time`, an `end_time` string the parser rejects, or one that parses to
the instant `t` (UTC-tagged and local timestamps both denote an instant on
one timeline after the code's timezone handling). -/
inductive Countdown
  | emptyCfg
  | noEndTime
  | badEndTime
  | endsAt (t : Int)
deriving DecidableEq, Repr

/-- The `monitor_config` descriptor held by a `MonitorConfig` instance:
`mode`, `schedule`, `countdown` as read in `MonitorConfig.__init__` /
`update_config`. -/
structure MonitorModeConfig where
  mode : String
  schedule : Schedule
  countdown : Countdown
deriving DecidableEq, Repr

structure RuntimeConfig where
  auth_token : Option String
  server_id : Option String
  report_url : Option String
  is_active : Bool
  report_interval : Int
  monitor_items : List (String × MonitorItem)
  monitor_config : MonitorModeConfig
deriving DecidableEq, Repr

/-- `config.DEFAULT_CONFIG` (restricted to the embedded fields): monitoring of
all four metric families enabled, `is_active` true, 30-second report interval,
CONTINUOUS monitoring mode, the default report URL, no server-assigned id or
credential yet. -/
def DEFAULT_CONFIG : RuntimeConfig :=
  { auth_token := none
    server_id := none
    report_url := some "http://localhost:8045/api/agent/report"
    is_active := true
    report_interval := 30
    monitor_items :=
      [("cpu", { enabled := true }), ("memory", { enabled := true }),
       ("disk", { enabled := true }), ("gpu", { enabled := true })]
    monitor_config := ⟨"CONTINUOUS", ⟨[], none, none⟩, Countdown.emptyCfg⟩ }

/-- `config.is_monitoring_enabled()`: true iff some `monitor_items` entry has
`enabled` set (each embedded entry is a dict, so the `isinstance` guard always
passes). -/
def is_monitoring_enabled (rc : RuntimeConfig) : Bool :=
  rc.monitor_items.any (fun it => it.2.enabled)

/-- `config.is_server_active()`: `RUNTIME_CONFIG.get("is_active", default)`. -/
def is_server_active (rc : RuntimeConfig) : Bool := rc.is_active

/-! ## monitor_config.py — the monitoring-window evaluator

`datetime.now()` is passed explicitly: `py_weekday` is Python's
`weekday()` (Monday = 0 … Sunday = 6), `current_time` the `'%H:%M'` string,
and `now` the instant used for countdown comparison.  Python compares the
`'%H:%M'` strings lexicographically by code point, which `pyStrLe` mirrors. -/

def strLeB : List Char → List Char → Bool
  | [], _ => true
  | _ :: _, [] => false
  | a :: as, b :: bs => if a < b then true else if b < a then false else strLeB as bs

def pyStrLe (a b : String) : Bool := strLeB a.data b.data

/-- `MonitorConfig._check_scheduled_time`.  The first branch mirrors
`if not self.schedule` (empty dict ⇒ allow); `days`/time-range checks follow
the source, with `none` for a missing or falsy entry. -/
def check_scheduled_time (schedule : Schedule) (py_weekday : Nat)
    (current_time : String) : Bool :=
  if schedule.days = [] ∧ schedule.start_time = none ∧ schedule.end_time = none then
    true
  else
    let current_weekday := toString (py_weekday + 1)
    if schedule.days ≠ [] ∧ current_weekday ∉ schedule.days then false
    else
      match schedule.start_time, schedule.end_time with
      | some start_time, some end_time =>
        pyStrLe start_time current_time && pyStrLe current_time end_time
      | _, _ => true

/-- `MonitorConfig._check_countdown_time`: empty config, missing end time and
a parse failure all yield `False`; otherwise `current_time < end_time`. -/
def check_countdown_time (countdown : Countdown) (now : Int) : Bool :=
  match countdown with
  | .emptyCfg => false
  | .noEndTime => false
  | .badEndTime => false
  | .endsAt e => now < e

/-- `MonitorConfig.is_monitoring_time` (the embedded branches are total, so
the `except` fallback never fires). -/
def is_monitoring_time (cfg : MonitorModeConfig) (py_weekday : Nat)
    (current_time : String) (now : Int) : Bool :=
  if cfg.mode = "CONTINUOUS" then true
  else if cfg.mode = "SCHEDULED" then check_scheduled_time cfg.schedule py_weekday current_time
  else if cfg.mode = "COUNTDOWN" then check_countdown_time cfg.countdown now
  else true

/-! ## heartbeat.py -/

/-- `HeartbeatManager.should_send_heartbeat`, with the manager's
`monitor_config` and the current clock readings passed explicitly.  The
returned reason strings are the source's literals. -/
def should_send_heartbeat (rc : RuntimeConfig) (mc : MonitorModeConfig)
    (py_weekday : Nat) (current_time : String) (now : Int) : Bool × String :=
  if !(is_server_active rc) then (true, "服务器已禁用监控")
  else if !(is_monitoring_enabled rc) then (true, "所有监控项均已禁用")
  else if !(is_monitoring_time mc py_weekday current_time now) then
    (true, "当前时间不在监控范围内")
  else (false, "")

/-! ## state_manager.py — the lifecycle state manager

A `StateManager` value bundles the Python object's fields (`state`,
`error_start_time`, `error_retry_count`) with the pieces of the filesystem and
of `RUNTIME_CONFIG` that its methods touch: `client_id.txt`
(`client_id_file`, `none` when absent), the `.client_delete_marker` existence
bit, `reinit_info.json` (`(timestamp, count)` when present) and the
runtime configuration.  `state_file_writes` is a ghost counter of
`_save_state()` calls, so that "no state-file write occurs" is expressible.
`time.time()` readings and the freshly generated `uuid.uuid4()` string are
explicit parameters (`now`, `new_id`). -/

inductive ClientState
  | unregistered
  | registering
  | registered
  | deleted
  | reinitialized
  | sleep_retry
  | error
deriving DecidableEq, Repr

structure StateManager where
  state : ClientState
  error_start_time : Int
  error_retry_count : Nat
  state_file_writes : Nat
  client_id_file : Option String
  delete_marker : Bool
  reinit_info : Option (Int × Nat)
  runtime_config : RuntimeConfig
deriving DecidableEq, Repr

namespace StateManager

/-- `StateManager.set_state`: a no-op when the state is unchanged; otherwise
update the error bookkeeping exactly as the source does and persist
(`_save_state`, counted by the ghost field).  The `error_retry_count += 1`
branch is kept even though the outer guard makes it unreachable
(`new_state = error` and `old_state = error` contradict `state ≠ new_state`). -/
def set_state (now : Int) (new_state : ClientState) (sm : StateManager) : StateManager :=
  if sm.state ≠ new_state then
    let old_state := sm.state
    let sm1 := { sm with state := new_state }
    let sm2 :=
      if new_state = ClientState.error then
        if old_state ≠ ClientState.error then
          { sm1 with error_start_time := now, error_retry_count := 0 }
        else
          { sm1 with error_retry_count := sm1.error_retry_count + 1 }
      else
        if old_state = ClientState.error then
          { sm1 with error_start_time := 0, error_retry_count := 0 }
        else sm1
    { sm2 with state_file_writes := sm2.state_file_writes + 1 }
  else sm

/-- `StateManager.check_delete_marker`. -/
def check_delete_marker (sm : StateManager) : Bool := sm.delete_marker

/-- `StateManager._regenerate_client_id`: delete `client_id.txt` and write the
freshly generated UUID `new_id`. -/
def regenerate_client_id (new_id : String) (sm : StateManager) : StateManager :=
  { sm with client_id_file := some new_id }

/-- `StateManager._clear_auth_info`: pop `auth_token`, `server_id` and
`report_url` from `RUNTIME_CONFIG`. -/
def clear_auth_info (sm : StateManager) : StateManager :=
  { sm with runtime_config :=
      { sm.runtime_config with auth_token := none, server_id := none, report_url := none } }

/-- `StateManager._reset_device_config`: a logged no-op in the source. -/
def reset_device_config (sm : StateManager) : StateManager := sm

/-- `StateManager._get_reinit_count`: the stored count, 0 when
`reinit_info.json` is absent. -/
def get_reinit_count (sm : StateManager) : Nat :=
  match sm.reinit_info with
  | some (_, count) => count
  | none => 0

/-- `StateManager._save_reinit_timestamp`: write the current time and the
incremented count to `reinit_info.json`. -/
def save_reinit_timestamp (now : Int) (sm : StateManager) : StateManager :=
  { sm with reinit_info := some (now, get_reinit_count sm + 1) }

/-- `StateManager.reinitialize_device`: regenerate the UUID, clear the
derived auth keys, reset the device config (no-op), set `REINITIALIZED`,
persist the reinit counter/timestamp.  The embedded steps are total, so the
`except` branch (which would set `ERROR`) never fires. -/
def reinitialize_device (new_id : String) (now : Int) (sm : StateManager) : StateManager :=
  save_reinit_timestamp now
    (set_state now ClientState.reinitialized
      (reset_device_config (clear_auth_info (regenerate_client_id new_id sm))))

/-- `StateManager.handle_device_deleted_response`: set `DELETED`, then run the
reinitialization flow. -/
def handle_device_deleted_response (new_id : String) (now : Int)
    (sm : StateManager) : StateManager :=
  reinitialize_device new_id now (set_state now ClientState.deleted sm)

/-- `StateManager._attempt_error_recovery`: with a pending deletion marker,
reinitialize; otherwise reset to `UNREGISTERED`. -/
def attempt_error_recovery (new_id : String) (now : Int) (sm : StateManager) : StateManager :=
  if check_delete_marker sm then reinitialize_device new_id now sm
  else set_state now ClientState.unregistered sm

/-- `StateManager._should_auto_recover_from_error`, returning the boolean
result together with the state it leaves behind (the Python method mutates
`self` through `_attempt_error_recovery`).  `MAX_ERROR_DURATION = 300`,
`MAX_ERROR_RETRIES = 10`. -/
def should_auto_recover_from_error (new_id : String) (now : Int)
    (sm : StateManager) : Bool × StateManager :=
  if sm.state ≠ ClientState.error then (false, sm)
  else
    let error_duration := now - sm.error_start_time
    if 300 ≤ error_duration then (true, attempt_error_recovery new_id now sm)
    else if 10 ≤ sm.error_retry_count then (true, attempt_error_recovery new_id now sm)
    else (false, sm)

end StateManager

/-! ## main.py — register_client and the registration step of main()

The HTTP layer is abstracted at the `requests.post` boundary: one
registration attempt yields a `RegisterHttp` outcome (a `RequestException`, a
200 response whose JSON body parsed to a dict or not, a 403 with an optional
parsed `error_code`, or another status code).  The parsed 200 body is a
`RegisterResponse` of optional fields — `none` meaning the key is absent —
mirroring the `config.get(...)` / `field in config` accesses of
`register_client`. -/

structure RegisterResponse where
  status : Option String
  auth_token : Option String
  server_id : Option String
  report_url : Option String
  report_interval : Option Int
  monitor_items : Option (List (String × MonitorItem))
  is_active : Option Bool
  message : Option String
deriving DecidableEq, Repr

inductive RegisterHttp
  | request_exception
  | ok (body : Option RegisterResponse)
  | forbidden (error_code : Option String)
  | http_error (code : Nat)
deriving DecidableEq, Repr

/-- The `full_config` dict `register_client` builds on success. -/
structure AcceptedConfig where
  server_id : String
  report_url : String
  report_interval : Int
  monitor_items : List (String × MonitorItem)
  is_active : Bool
  auth_token : String
  message : String
deriving DecidableEq, Repr

/-- The dicts `register_client` can return (besides `None`). -/
inductive RegisterReturn
  | rejected (message : String)
  | deleted
  | accepted (full_config : AcceptedConfig)
deriving DecidableEq, Repr

/-- `missing_fields` of `register_client`: which of the six required keys are
absent from an accepted response. -/
def missing_required_fields (config : RegisterResponse) : Bool :=
  config.server_id.isNone || config.auth_token.isNone || config.report_url.isNone ||
  config.report_interval.isNone || config.monitor_items.isNone || config.is_active.isNone

/-- `missing_monitors` of `register_client`: the required monitor families
absent from `monitor_items`. -/
def missing_monitors (config : RegisterResponse) : List String :=
  ["cpu", "memory", "disk", "gpu"].filter
    (fun m => !(((config.monitor_items.getD []).map Prod.fst).contains m))

/-- One iteration of the `while True` loop body of `register_client`: either
the function returns a value (`ret`) or it falls through to the retry logic
(`retry`, reached on a `pending` status and on a `RequestException`).  The
`deleted` cases run `handle_device_deleted_response` on the state manager
(`my_token` is the caller's `get_auth_token()` value, `new_id`/`now` the
oracle inputs a reinitialization would consume). -/
def register_attempt (my_token new_id : String) (now : Int) (r : RegisterHttp)
    (sm : StateManager) : (Option (Option RegisterReturn)) × StateManager :=
  match r with
  | .request_exception => (none, sm)
  | .ok none => (some none, sm)
  | .ok (some config) =>
    if config.status = some "pending" then (none, sm)
    else if config.status = some "rejected" then
      (some (some (.rejected (config.message.getD "未知原因"))), sm)
    else if config.status = some "deleted" then
      (some (some .deleted), sm.handle_device_deleted_response new_id now)
    else if config.status = some "accepted" then
      -- `server_token = config.get("auth_token"); if not server_token: return None`
      -- (a missing key and an empty-string token are both falsy)
      let server_token := config.auth_token.getD ""
      if server_token = "" then (some none, sm)
      else if server_token ≠ my_token then (some none, sm)
      else if missing_required_fields config then (some none, sm)
      else if missing_monitors config ≠ [] then (some none, sm)
      else
        (some (some (.accepted
          { server_id := config.server_id.getD ""
            report_url := config.report_url.getD ""
            report_interval := config.report_interval.getD 0
            monitor_items := config.monitor_items.getD []
            is_active := config.is_active.getD true
            auth_token := server_token
            message := config.message.getD "注册成功" })), sm)
    else (some none, sm)
  | .forbidden error_code =>
    if error_code = some "DEVICE_DELETED" then
      (some (some .deleted), sm.handle_device_deleted_response new_id now)
    else (some none, sm)
  | .http_error _ => (some none, sm)

/-- The retry loop of `register_client` over a finite list of modelled attempt
outcomes, with the source's `attempt` counter and
`max_retries > 0 and attempt >= max_retries` exit.  The overall result is
`none` when every modelled attempt fell through to a retry and the budget
allowed continuing (the Python loop is still running), and `some v` when the
function returned `v` (`v = none` for Python `None`). -/
def register_client_loop (my_token new_id : String) (now : Int) (max_retries : Nat) :
    List RegisterHttp → Nat → StateManager → (Option (Option RegisterReturn)) × StateManager
  | [], _, sm => (none, sm)
  | r :: rest, attempt, sm =>
    let attempt1 := attempt + 1
    match register_attempt my_token new_id now r sm with
    | (some v, sm1) => (some v, sm1)
    | (none, sm1) =>
      if 0 < max_retries ∧ max_retries ≤ attempt1 then (some none, sm1)
      else register_client_loop my_token new_id now max_retries rest attempt1 sm1

/-- `register_client(max_retries, ...)` run against the modelled attempt
outcomes, starting from `attempt = 0`. -/
def register_client (my_token new_id : String) (now : Int)
    (attempts : List RegisterHttp) (max_retries : Nat) (sm : StateManager) :
    (Option (Option RegisterReturn)) × StateManager :=
  register_client_loop my_token new_id now max_retries attempts 0 sm

/-- The registration step of `main()` (the "正常注册流程" block): call
`register_client` and dispatch on its result — `None` sets `ERROR`,
`rejected`/`pending` sleep and loop again, `deleted` was already handled
inside `register_client`, `accepted` sets `REGISTERED` (the subsequent
`is_active`/completeness checks come after that transition).  When the
modelled attempts are exhausted without `register_client` returning, the state
is whatever the attempts left behind. -/
def main_registration_step (my_token new_id : String) (now : Int)
    (attempts : List RegisterHttp) (max_retries : Nat) (sm : StateManager) : StateManager :=
  match register_client my_token new_id now attempts max_retries sm with
  | (none, sm1) => sm1
  | (some none, sm1) => sm1.set_state now ClientState.error
  | (some (some (.rejected _)), sm1) => sm1
  | (some (some .deleted), sm1) => sm1
  | (some (some (.accepted _)), sm1) => sm1.set_state now ClientState.registered

/-! ## Helper lemmas -/

theorem Cache.WF_empty (α : Type) : Cache.WF (Cache.emptyDB α) := by
  constructor <;> simp [Cache.emptyDB]

theorem Cache.WF_save {α : Type} {db : CacheDB α} (h : Cache.WF db)
    (now : Int) (data : α) : Cache.WF (Cache.save now data db) := by
  obtain ⟨hpair, hlt⟩ := h
  constructor
  · refine List.pairwise_append.2 ⟨hpair, by simp, ?_⟩
    intro r hr s hs
    simp only [Cache.save, List.mem_singleton] at hs
    subst hs
    exact hlt r hr
  · intro r hr
    simp only [Cache.save, List.mem_append, List.mem_singleton] at hr
    rcases hr with hr | hr
    · exact Nat.lt_succ_of_lt (hlt r hr)
    · subst hr; exact Nat.lt_succ_self _

/-- `set_state` always leaves the requested state behind. -/
theorem StateManager.set_state_state (sm : StateManager) (now : Int) (x : ClientState) :
    (sm.set_state now x).state = x := by
  unfold StateManager.set_state
  by_cases h : sm.state = x
  · simp [h]
  · simp [h]
    split <;> split <;> rfl

/-- `set_state` touches only `state`, the error bookkeeping and the
state-file ghost counter. -/
theorem StateManager.set_state_frame (sm : StateManager) (now : Int) (x : ClientState) :
    (sm.set_state now x).client_id_file = sm.client_id_file ∧
    (sm.set_state now x).delete_marker = sm.delete_marker ∧
    (sm.set_state now x).reinit_info = sm.reinit_info ∧
    (sm.set_state now x).runtime_config = sm.runtime_config := by
  unfold StateManager.set_state
  by_cases h : sm.state = x
  · simp [h]
  · simp [h]
    split <;> split <;> simp_all

/-- Field-level characterization of `reinitialize_device`. -/
theorem StateManager.reinitialize_device_spec (sm : StateManager)
    (new_id : String) (now : Int) :
    (sm.reinitialize_device new_id now).state = ClientState.reinitialized ∧
    (sm.reinitialize_device new_id now).client_id_file = some new_id ∧
    (sm.reinitialize_device new_id now).runtime_config.auth_token = none ∧
    (sm.reinitialize_device new_id now).runtime_config.server_id = none ∧
    (sm.reinitialize_device new_id now).runtime_config.report_url = none ∧
    (sm.reinitialize_device new_id now).runtime_config.monitor_items
      = sm.runtime_config.monitor_items ∧
    (sm.reinitialize_device new_id now).runtime_config.monitor_config
      = sm.runtime_config.monitor_config ∧
    (sm.reinitialize_device new_id now).runtime_config.is_active
      = sm.runtime_config.is_active ∧
    (sm.reinitialize_device new_id now).runtime_config.report_interval
      = sm.runtime_config.report_interval ∧
    (sm.reinitialize_device new_id now).reinit_info
      = some (now, sm.get_reinit_count + 1) ∧
    (sm.reinitialize_device new_id now).delete_marker = sm.delete_marker := by
  unfold StateManager.reinitialize_device StateManager.save_reinit_timestamp
    StateManager.reset_device_config StateManager.set_state StateManager.clear_auth_info
    StateManager.regenerate_client_id StateManager.get_reinit_count
  by_cases h1 : sm.state = ClientState.reinitialized <;>
    by_cases h2 : sm.state = ClientState.error <;>
      simp_all

/-! ## Claim theorems -/

/-- C6: the sleep-retry schedule is the fixed lookup table, by zero-based
attempt index: attempt 0 waits 0 seconds, attempt 1 waits 60, attempt 2
waits 120, and every attempt index `n ≥ 3` waits 300. -/
theorem C6_sleep_retry_schedule :
    get_sleep_retry_interval 0 = 0 ∧ get_sleep_retry_interval 1 = 60 ∧
    get_sleep_retry_interval 2 = 120 ∧
    ∀ n : Nat, 3 ≤ n → get_sleep_retry_interval n = 300 := by
  refine ⟨rfl, rfl, rfl, ?_⟩
  intro n hn
  have h0 : n ≠ 0 := by omega
  have h1 : n ≠ 1 := by omega
  have h2 : n ≠ 2 := by omega
  simp [get_sleep_retry_interval, SLEEP_RETRY_INTERVALS,
    SLEEP_RETRY_INTERVALS_default, h0, h1, h2]

theorem C6_sleep_retry_schedule_witness :
    3 ≤ 7 ∧ get_sleep_retry_interval 7 = 300 :=
  ⟨by decide, C6_sleep_retry_schedule.2.2.2 7 (by decide)⟩

/-- C10: `set_state` with the current state is a complete no-op — the
returned manager is the old one, so in particular `state`,
`error_start_time` and `error_retry_count` are unchanged and no state-file
write happens (the ghost `state_file_writes` counter is unchanged);
consequently repeated `set_state(ERROR)` calls while already in `ERROR`
never increment `error_retry_count`. -/
theorem C10_set_state_self_noop :
    ∀ (sm : StateManager) (now : Int) (s : ClientState), sm.state = s →
      sm.set_state now s = sm ∧
      (sm.set_state now s).state = sm.state ∧
      (sm.set_state now s).error_start_time = sm.error_start_time ∧
      (sm.set_state now s).error_retry_count = sm.error_retry_count ∧
      (sm.set_state now s).state_file_writes = sm.state_file_writes := by
  intro sm now s h
  subst h
  simp [StateManager.set_state]

theorem C10_set_state_self_noop_witness :
    ({ state := ClientState.error, error_start_time := 50, error_retry_count := 4,
       state_file_writes := 9, client_id_file := some "u", delete_marker := false,
       reinit_info := none, runtime_config := DEFAULT_CONFIG } : StateManager).set_state
      1000 ClientState.error
    = { state := ClientState.error, error_start_time := 50, error_retry_count := 4,
        state_file_writes := 9, client_id_file := some "u", delete_marker := false,
        reinit_info := none, runtime_config := DEFAULT_CONFIG } :=
  (C10_set_state_self_noop _ 1000 ClientState.error rfl).1

/-- C5: `prune(max_age_seconds)` deletes exactly the records strictly older
than the age threshold `now - max_age_seconds`, regardless of the `sent`
flag: an unsent record older than the threshold is removed, and a record at
or newer than the threshold is kept. -/
theorem C5_prune_age_unconditional :
    ∀ (α : Type) (db : CacheDB α) (max_age_seconds now : Int) (r : QueueRecord α),
      (r ∈ (Cache.prune max_age_seconds now db).records ↔
        r ∈ db.records ∧ ¬(r.timestamp < now - max_age_seconds)) ∧
      (r ∈ db.records → r.sent = false → r.timestamp < now - max_age_seconds →
        r ∉ (Cache.prune max_age_seconds now db).records) ∧
      (r ∈ db.records → now - max_age_seconds ≤ r.timestamp →
        r ∈ (Cache.prune max_age_seconds now db).records) := by
  intro α db mage now r
  have hmem : r ∈ (Cache.prune mage now db).records ↔
      r ∈ db.records ∧ ¬(r.timestamp < now - mage) := by
    simp [Cache.prune, List.mem_filter]
  refine ⟨hmem, ?_, ?_⟩
  · intro h1 _ h3 hmem2
    exact ((hmem.1 hmem2).2 h3)
  · intro h1 h2
    exact hmem.2 ⟨h1, not_lt.2 h2⟩

theorem C5_prune_age_unconditional_witness :
    (⟨1, 0, 0, false⟩ : QueueRecord Nat) ∉
      (Cache.prune 50 100 (⟨[⟨1, 0, 0, false⟩, ⟨2, 100, 0, false⟩], 3⟩ : CacheDB Nat)).records ∧
    (⟨2, 100, 0, false⟩ : QueueRecord Nat) ∈
      (Cache.prune 50 100 (⟨[⟨1, 0, 0, false⟩, ⟨2, 100, 0, false⟩], 3⟩ : CacheDB Nat)).records :=
  ⟨(C5_prune_age_unconditional Nat _ 50 100 _).2.1 (by decide) (by decide) (by decide),
   (C5_prune_age_unconditional Nat _ 50 100 _).2.2 (by decide) (by decide)⟩

/-- C4: the durable queue is FIFO by record id.  For a well-formed table:
`get_unsent` returns records in strictly ascending id order (independent of
the `sent` state of other records), at most `limit` many, all unsent;
`save` appends a new unsent record carrying the next id and preserves
well-formedness; `mark_sent` is a no-op on an empty id list, leaves records
with unlisted ids untouched and flips exactly the `sent` flag of listed
ones; and the `save a; save b; save c` scenario returns `[a, b]` from
`get_unsent 2` and exactly `[c]` from `get_unsent 10` after
`mark_sent [a.id, b.id]`. -/
theorem C4_queue_fifo :
    (∀ (α : Type) (db : CacheDB α) (limit : Nat), Cache.WF db →
        (Cache.get_unsent limit db).Pairwise (fun r s => r.id < s.id) ∧
        (Cache.get_unsent limit db).length ≤ limit ∧
        ∀ r ∈ Cache.get_unsent limit db, r.sent = false) ∧
    (∀ (α : Type) (now : Int) (data : α) (db : CacheDB α),
        (Cache.save now data db).records
          = db.records ++ [⟨db.next_id, now, data, false⟩] ∧
        (Cache.WF db → Cache.WF (Cache.save now data db))) ∧
    (∀ (α : Type) (db : CacheDB α), Cache.mark_sent [] db = db) ∧
    (∀ (α : Type) (db : CacheDB α) (ids : List Nat) (r : QueueRecord α),
        r ∈ db.records → r.id ∉ ids → r ∈ (Cache.mark_sent ids db).records) ∧
    (∀ (α : Type) (db : CacheDB α) (ids : List Nat) (r : QueueRecord α),
        r ∈ db.records → r.id ∈ ids →
          (⟨r.id, r.timestamp, r.data, true⟩ : QueueRecord α)
            ∈ (Cache.mark_sent ids db).records) ∧
    (∀ (α : Type) (t1 t2 t3 : Int) (a b c : α),
        Cache.get_unsent 2
            (Cache.save t3 c (Cache.save t2 b (Cache.save t1 a (Cache.emptyDB α))))
          = [⟨1, t1, a, false⟩, ⟨2, t2, b, false⟩] ∧
        Cache.get_unsent 10
            (Cache.mark_sent [1, 2]
              (Cache.save t3 c (Cache.save t2 b (Cache.save t1 a (Cache.emptyDB α)))))
          = [⟨3, t3, c, false⟩]) := by
  refine ⟨?_, ?_, ?_, ?_, ?_, ?_⟩
  · intro α db limit hwf
    refine ⟨?_, ?_, ?_⟩
    · exact ((hwf.1.filter _).sublist (List.take_sublist _ _))
    · simp only [Cache.get_unsent, List.length_take]
      omega
    · intro r hr
      have hr2 : r ∈ db.records.filter (fun r => r.sent == false) :=
        List.mem_of_mem_take hr
      simpa using (List.mem_filter.1 hr2).2
  · intro α now data db
    exact ⟨rfl, fun h => Cache.WF_save h now data⟩
  · intro α db
    simp [Cache.mark_sent]
  · intro α db ids r hr hid
    by_cases hids : ids = []
    · simpa [Cache.mark_sent, hids] using hr
    · have hm := List.mem_map_of_mem
        (fun x : QueueRecord α => if x.id ∈ ids then { x with sent := true } else x) hr
      simp only [hid, if_false, ite_false] at hm
      simpa [Cache.mark_sent, hids] using hm
  · intro α db ids r hr hid
    have hids : ids ≠ [] := by
      intro h; subst h; simp at hid
    have hm := List.mem_map_of_mem
      (fun x : QueueRecord α => if x.id ∈ ids then { x with sent := true } else x) hr
    simp only [hid, if_true, ite_true] at hm
    simpa [Cache.mark_sent, hids] using hm
  · intro α t1 t2 t3 a b c
    constructor <;> rfl

theorem C4_queue_fifo_witness :
    Cache.WF (⟨[⟨1, 5, 0, false⟩, ⟨2, 6, 0, true⟩, ⟨3, 7, 0, false⟩], 4⟩ : CacheDB Nat) ∧
    (Cache.get_unsent 5
        (⟨[⟨1, 5, 0, false⟩, ⟨2, 6, 0, true⟩, ⟨3, 7, 0, false⟩], 4⟩ : CacheDB Nat)).Pairwise
      (fun r s => r.id < s.id) ∧
    (⟨1, 5, 0, false⟩ : QueueRecord Nat) ∈
      (Cache.mark_sent [3]
        (⟨[⟨1, 5, 0, false⟩, ⟨2, 6, 0, true⟩, ⟨3, 7, 0, false⟩], 4⟩ : CacheDB Nat)).records ∧
    (⟨3, 7, 0, true⟩ : QueueRecord Nat) ∈
      (Cache.mark_sent [3]
        (⟨[⟨1, 5, 0, false⟩, ⟨2, 6, 0, true⟩, ⟨3, 7, 0, false⟩], 4⟩ : CacheDB Nat)).records :=
  ⟨by decide,
   (C4_queue_fifo.1 Nat _ 5 (by decide)).1,
   C4_queue_fifo.2.2.2.1 Nat _ [3] _ (by decide) (by decide),
   C4_queue_fifo.2.2.2.2.1 Nat _ [3] ⟨3, 7, 0, false⟩ (by decide) (by decide)⟩

/-- C7: `should_send_heartbeat` checks, in priority order, (a) the
server-active flag, (b) whether any monitored metric family is enabled,
(c) whether the current instant is inside the monitoring window, returning
`(true, reason)` for the first failing check and `(false, "")` when all
pass; with the server-active flag false it returns the server-inactive
reason even when monitoring is enabled and the window is open. -/
theorem C7_should_send_heartbeat_priority :
    ∀ (rc : RuntimeConfig) (mc : MonitorModeConfig) (py_weekday : Nat)
      (current_time : String) (now : Int),
      (is_server_active rc = false →
        should_send_heartbeat rc mc py_weekday current_time now
          = (true, "服务器已禁用监控")) ∧
      (is_server_active rc = true → is_monitoring_enabled rc = false →
        should_send_heartbeat rc mc py_weekday current_time now
          = (true, "所有监控项均已禁用")) ∧
      (is_server_active rc = true → is_monitoring_enabled rc = true →
        is_monitoring_time mc py_weekday current_time now = false →
        should_send_heartbeat rc mc py_weekday current_time now
          = (true, "当前时间不在监控范围内")) ∧
      (is_server_active rc = true → is_monitoring_enabled rc = true →
        is_monitoring_time mc py_weekday current_time now = true →
        should_send_heartbeat rc mc py_weekday current_time now = (false, "")) ∧
      ((should_send_heartbeat rc mc py_weekday current_time now).1 = true ↔
        (is_server_active rc = false ∨ is_monitoring_enabled rc = false ∨
         is_monitoring_time mc py_weekday current_time now = false)) := by
  intro rc mc py_weekday current_time now
  cases h1 : is_server_active rc <;>
    cases h2 : is_monitoring_enabled rc <;>
      cases h3 : is_monitoring_time mc py_weekday current_time now <;>
        simp [should_send_heartbeat, h1, h2, h3]

theorem C7_should_send_heartbeat_priority_witness :
    is_monitoring_enabled { DEFAULT_CONFIG with is_active := false } = true ∧
    is_monitoring_time DEFAULT_CONFIG.monitor_config 1 "10:00" 0 = true ∧
    should_send_heartbeat { DEFAULT_CONFIG with is_active := false }
      DEFAULT_CONFIG.monitor_config 1 "10:00" 0 = (true, "服务器已禁用监控") :=
  ⟨by decide, by decide,
   (C7_should_send_heartbeat_priority { DEFAULT_CONFIG with is_active := false }
     DEFAULT_CONFIG.monitor_config 1 "10:00" 0).1 (by decide)⟩

/-- C8: the monitoring-window evaluator.  SCHEDULED is active iff today's
weekday code (`str(weekday() + 1)`) is in `schedule.days` (an empty `days`
means no restriction) and the current `HH:MM` time lies within
`[start_time, end_time]` inclusive (an unset range means no restriction);
COUNTDOWN is active iff the current instant is strictly before the parsed
`end_time`, with an empty config and a missing or unparsable end time
inactive.  The SCHEDULED example with days `{"1".."5"}` and window
09:00–18:00 is inactive on a Saturday at 10:00 and active on a Tuesday at
10:00. -/
theorem C8_monitoring_window :
    (∀ (schedule : Schedule) (py_weekday : Nat) (current_time : String),
        check_scheduled_time schedule py_weekday current_time = true ↔
          ((schedule.days = [] ∨ toString (py_weekday + 1) ∈ schedule.days) ∧
           ∀ s e, schedule.start_time = some s → schedule.end_time = some e →
             pyStrLe s current_time = true ∧ pyStrLe current_time e = true)) ∧
    (∀ (countdown : Countdown) (now : Int),
        check_countdown_time countdown now = true ↔
          ∃ e, countdown = Countdown.endsAt e ∧ now < e) ∧
    (∀ now : Int,
        check_countdown_time Countdown.emptyCfg now = false ∧
        check_countdown_time Countdown.noEndTime now = false ∧
        check_countdown_time Countdown.badEndTime now = false) ∧
    (is_monitoring_time
        ⟨"SCHEDULED", ⟨["1", "2", "3", "4", "5"], some "09:00", some "18:00"⟩,
         Countdown.emptyCfg⟩ 5 "10:00" 0 = false ∧
     is_monitoring_time
        ⟨"SCHEDULED", ⟨["1", "2", "3", "4", "5"], some "09:00", some "18:00"⟩,
         Countdown.emptyCfg⟩ 1 "10:00" 0 = true) := by
  refine ⟨?_, ?_, ?_, by decide, by decide⟩
  · intro schedule py_weekday current_time
    obtain ⟨days, st, et⟩ := schedule
    unfold check_scheduled_time
    by_cases hempty : days = [] ∧ st = none ∧ et = none
    · obtain ⟨h1, h2, h3⟩ := hempty
      subst h1; subst h2; subst h3
      simp
    · rw [if_neg hempty]
      by_cases hdays : days ≠ [] ∧ toString (py_weekday + 1) ∉ days
      · rw [if_pos hdays]
        constructor
        · intro h; simp at h
        · rintro ⟨h1 | h1, -⟩
          · exact absurd h1 hdays.1
          · exact absurd h1 hdays.2
      · rw [if_neg hdays]
        have hdays2 : days = [] ∨ toString (py_weekday + 1) ∈ days := by
          by_cases h : days = []
          · exact Or.inl h
          · right
            by_contra hc
            exact hdays ⟨h, hc⟩
        cases st with
        | none => simp [hdays2]
        | some s =>
          cases et with
          | none => simp [hdays2]
          | some e => simp [hdays2, Bool.and_eq_true, and_comm]
  · intro countdown now
    cases countdown <;> simp [check_countdown_time]
  · intro now
    refine ⟨rfl, rfl, rfl⟩

theorem C8_monitoring_window_witness :
    check_scheduled_time
      ⟨["1", "2", "3", "4", "5"], some "09:00", some "18:00"⟩ 1 "10:00" = true := by
  refine (C8_monitoring_window.1 _ 1 "10:00").mpr ⟨Or.inr (by decide), ?_⟩
  intro s e hs he
  simp only [Option.some.injEq] at hs he
  subst hs; subst he
  exact ⟨by decide, by decide⟩

/-- C1: handling a deletion signal passes through `DELETED` and ends in
`REINITIALIZED`; the reinitialization rotates the identity (the identifier
file ends up holding the freshly generated UUID, different from the old
one), removes the credential, server-assigned id and report-URL keys from
the runtime configuration while leaving the monitoring preference
configuration (monitor items, monitoring mode, active flag, report
interval) untouched, and persists the incremented reinitialization counter
with its timestamp. -/
theorem C1_deletion_reinit_lifecycle :
    ∀ (sm : StateManager) (new_id old_id : String) (now : Int),
      sm.client_id_file = some old_id →
      new_id ≠ old_id →
      (sm.set_state now ClientState.deleted).state = ClientState.deleted ∧
      sm.handle_device_deleted_response new_id now
        = (sm.set_state now ClientState.deleted).reinitialize_device new_id now ∧
      (sm.handle_device_deleted_response new_id now).state = ClientState.reinitialized ∧
      (sm.handle_device_deleted_response new_id now).client_id_file = some new_id ∧
      (sm.handle_device_deleted_response new_id now).client_id_file ≠ sm.client_id_file ∧
      (sm.handle_device_deleted_response new_id now).runtime_config.auth_token = none ∧
      (sm.handle_device_deleted_response new_id now).runtime_config.server_id = none ∧
      (sm.handle_device_deleted_response new_id now).runtime_config.report_url = none ∧
      (sm.handle_device_deleted_response new_id now).runtime_config.monitor_items
        = sm.runtime_config.monitor_items ∧
      (sm.handle_device_deleted_response new_id now).runtime_config.monitor_config
        = sm.runtime_config.monitor_config ∧
      (sm.handle_device_deleted_response new_id now).runtime_config.is_active
        = sm.runtime_config.is_active ∧
      (sm.handle_device_deleted_response new_id now).runtime_config.report_interval
        = sm.runtime_config.report_interval ∧
      (sm.handle_device_deleted_response new_id now).reinit_info
        = some (now, sm.get_reinit_count + 1) := by
  intro sm new_id old_id now hold hne
  have hmid := StateManager.set_state_state sm now ClientState.deleted
  have hframe := StateManager.set_state_frame sm now ClientState.deleted
  set mid := sm.set_state now ClientState.deleted with hmiddef
  have hspec := StateManager.reinitialize_device_spec mid new_id now
  have hhandle : sm.handle_device_deleted_response new_id now
      = mid.reinitialize_device new_id now := rfl
  have hcount : mid.get_reinit_count = sm.get_reinit_count := by
    unfold StateManager.get_reinit_count
    rw [hframe.2.2.1]
  refine ⟨hmid, hhandle, ?_, ?_, ?_, ?_, ?_, ?_, ?_, ?_, ?_, ?_, ?_⟩
  · rw [hhandle]; exact hspec.1
  · rw [hhandle]; exact hspec.2.1
  · rw [hhandle, hspec.2.1, hold]
    simp [hne]
  · rw [hhandle]; exact hspec.2.2.1
  · rw [hhandle]; exact hspec.2.2.2.1
  · rw [hhandle]; exact hspec.2.2.2.2.1
  · rw [hhandle, hspec.2.2.2.2.2.1, hframe.2.2.2]
  · rw [hhandle, hspec.2.2.2.2.2.2.1, hframe.2.2.2]
  · rw [hhandle, hspec.2.2.2.2.2.2.2.1, hframe.2.2.2]
  · rw [hhandle, hspec.2.2.2.2.2.2.2.2.1, hframe.2.2.2]
  · rw [hhandle, hspec.2.2.2.2.2.2.2.2.2.1, hcount]

theorem C1_deletion_reinit_lifecycle_witness :
    (({ state := ClientState.registered, error_start_time := 0, error_retry_count := 0,
        state_file_writes := 0, client_id_file := some "old-uuid", delete_marker := false,
        reinit_info := none,
        runtime_config := { DEFAULT_CONFIG with
                            auth_token := some "tok"
                            server_id := some "7" } } : StateManager).handle_device_deleted_response
      "new-uuid" 1234).state = ClientState.reinitialized ∧
    (({ state := ClientState.registered, error_start_time := 0, error_retry_count := 0,
        state_file_writes := 0, client_id_file := some "old-uuid", delete_marker := false,
        reinit_info := none,
        runtime_config := { DEFAULT_CONFIG with
                            auth_token := some "tok"
                            server_id := some "7" } } : StateManager).handle_device_deleted_response
      "new-uuid" 1234).client_id_file = some "new-uuid" ∧
    (({ state := ClientState.registered, error_start_time := 0, error_retry_count := 0,
        state_file_writes := 0, client_id_file := some "old-uuid", delete_marker := false,
        reinit_info := none,
        runtime_config := { DEFAULT_CONFIG with
                            auth_token := some "tok"
                            server_id := some "7" } } : StateManager).handle_device_deleted_response
      "new-uuid" 1234).runtime_config.auth_token = none :=
  ⟨(C1_deletion_reinit_lifecycle _ "new-uuid" "old-uuid" 1234 rfl (by decide)).2.2.1,
   (C1_deletion_reinit_lifecycle _ "new-uuid" "old-uuid" 1234 rfl (by decide)).2.2.2.1,
   (C1_deletion_reinit_lifecycle _ "new-uuid" "old-uuid" 1234 rfl (by decide)).2.2.2.2.2.1⟩

/-- C2: in `ERROR`, the automatic-recovery check fires exactly when the
elapsed error duration reaches 300 seconds or the retry count reaches 10;
without a pending deletion marker it resets the state to `UNREGISTERED`,
with one it runs the reinitialize procedure and the state becomes
`REINITIALIZED`; below both thresholds nothing changes. -/
theorem C2_error_auto_recovery :
    ∀ (sm : StateManager) (new_id : String) (now : Int),
      sm.state = ClientState.error →
      ((300 ≤ now - sm.error_start_time ∨ 10 ≤ sm.error_retry_count) →
        (sm.should_auto_recover_from_error new_id now).1 = true ∧
        (sm.delete_marker = false →
          (sm.should_auto_recover_from_error new_id now).2.state
            = ClientState.unregistered) ∧
        (sm.delete_marker = true →
          (sm.should_auto_recover_from_error new_id now).2
            = sm.reinitialize_device new_id now ∧
          (sm.should_auto_recover_from_error new_id now).2.state
            = ClientState.reinitialized)) ∧
      (¬(300 ≤ now - sm.error_start_time ∨ 10 ≤ sm.error_retry_count) →
        (sm.should_auto_recover_from_error new_id now).1 = false ∧
        (sm.should_auto_recover_from_error new_id now).2 = sm) := by
  intro sm new_id now hstate
  have hrec : sm.should_auto_recover_from_error new_id now =
      (if 300 ≤ now - sm.error_start_time then
        (true, sm.attempt_error_recovery new_id now)
      else if 10 ≤ sm.error_retry_count then
        (true, sm.attempt_error_recovery new_id now)
      else (false, sm)) := by
    unfold StateManager.should_auto_recover_from_error
    simp [hstate]
  constructor
  · intro hcond
    have hfire : sm.should_auto_recover_from_error new_id now
        = (true, sm.attempt_error_recovery new_id now) := by
      rw [hrec]
      rcases hcond with h | h
      · rw [if_pos h]
      · by_cases h300 : 300 ≤ now - sm.error_start_time
        · rw [if_pos h300]
        · rw [if_neg h300, if_pos h]
    refine ⟨by rw [hfire], ?_, ?_⟩
    · intro hmarker
      rw [hfire]
      unfold StateManager.attempt_error_recovery StateManager.check_delete_marker
      rw [hmarker]
      simp only [Bool.false_eq_true, if_false, ite_false]
      exact StateManager.set_state_state sm now ClientState.unregistered
    · intro hmarker
      have h2 : (sm.should_auto_recover_from_error new_id now).2
          = sm.reinitialize_device new_id now := by
        rw [hfire]
        unfold StateManager.attempt_error_recovery StateManager.check_delete_marker
        rw [hmarker]
        simp
      exact ⟨h2, by rw [h2]; exact (StateManager.reinitialize_device_spec sm new_id now).1⟩
  · intro hcond
    push_neg at hcond
    rw [hrec, if_neg (by omega), if_neg (by omega)]
    exact ⟨rfl, rfl⟩

theorem C2_error_auto_recovery_witness :
    (({ state := ClientState.error, error_start_time := 100, error_retry_count := 0,
        state_file_writes := 0, client_id_file := some "u", delete_marker := false,
        reinit_info := none,
        runtime_config := DEFAULT_CONFIG } : StateManager).should_auto_recover_from_error
      "n" 500).1 = true ∧
    (({ state := ClientState.error, error_start_time := 100, error_retry_count := 0,
        state_file_writes := 0, client_id_file := some "u", delete_marker := false,
        reinit_info := none,
        runtime_config := DEFAULT_CONFIG } : StateManager).should_auto_recover_from_error
      "n" 500).2.state = ClientState.unregistered :=
  ⟨((C2_error_auto_recovery _ "n" 500 rfl).1 (by decide)).1,
   ((C2_error_auto_recovery _ "n" 500 rfl).1 (by decide)).2.1 rfl⟩

/-- The deletion handler always ends in `REINITIALIZED`. -/
theorem StateManager.handle_device_deleted_response_state (sm : StateManager)
    (new_id : String) (now : Int) :
    (sm.handle_device_deleted_response new_id now).state = ClientState.reinitialized :=
  (StateManager.reinitialize_device_spec (sm.set_state now ClientState.deleted) new_id now).1

/-- A `register_client` call that performs exactly one attempt
(`max_retries = 1`), as seen by the registration step of `main()`:
a fall-through (transport failure / pending) exhausts the retry budget and
returns `None`, so the caller sets `ERROR`; a returned `None` likewise;
`rejected`/`deleted` leave the state the attempt produced; `accepted` sets
`REGISTERED`. -/
theorem main_registration_step_single (my_token new_id : String) (now : Int)
    (r : RegisterHttp) (sm : StateManager) :
    main_registration_step my_token new_id now [r] 1 sm =
      match register_attempt my_token new_id now r sm with
      | (none, sm1) => sm1.set_state now ClientState.error
      | (some none, sm1) => sm1.set_state now ClientState.error
      | (some (some (RegisterReturn.rejected _)), sm1) => sm1
      | (some (some RegisterReturn.deleted), sm1) => sm1
      | (some (some (RegisterReturn.accepted _)), sm1) =>
          sm1.set_state now ClientState.registered := by
  rcases hra : register_attempt my_token new_id now r sm with ⟨step, sm1⟩
  rcases step with _ | v
  · simp [main_registration_step, register_client, register_client_loop, hra]
  · rcases v with _ | rr
    · simp [main_registration_step, register_client, register_client_loop, hra]
    · rcases rr <;>
        simp [main_registration_step, register_client, register_client_loop, hra]

/-- C3 counterexample: an accepted response with a matching credential and
all six required fields present, whose `monitor_items` dict is empty, still
drives the state to `ERROR` (the code additionally requires the monitor
families `cpu`, `memory`, `disk`, `gpu` inside `monitor_items`), so the
claimed "exactly when accepted and credential matches" equivalence fails. -/
theorem C3_registration_counterexample :
    (⟨some "accepted", some "tok", some "1", some "http://s/report", some 30,
      some [], some true, none⟩ : RegisterResponse).status = some "accepted" ∧
    (⟨some "accepted", some "tok", some "1", some "http://s/report", some 30,
      some [], some true, none⟩ : RegisterResponse).auth_token = some "tok" ∧
    missing_required_fields
      (⟨some "accepted", some "tok", some "1", some "http://s/report", some 30,
        some [], some true, none⟩ : RegisterResponse) = false ∧
    (main_registration_step "tok" "new-id" 0
        [RegisterHttp.ok (some
          (⟨some "accepted", some "tok", some "1", some "http://s/report", some 30,
            some [], some true, none⟩ : RegisterResponse))] 1
        (⟨ClientState.registering, 0, 0, 0, some "u", false, none,
          DEFAULT_CONFIG⟩ : StateManager)).state = ClientState.error ∧
    (main_registration_step "tok" "new-id" 0
        [RegisterHttp.ok (some
          (⟨some "accepted", some "tok", some "1", some "http://s/report", some 30,
            some [], some true, none⟩ : RegisterResponse))] 1
        (⟨ClientState.registering, 0, 0, 0, some "u", false, none,
          DEFAULT_CONFIG⟩ : StateManager)).state ≠ ClientState.registered := by
  refine ⟨rfl, rfl, rfl, by decide, by decide⟩

/-- C3 (amended): a single registration attempt from `REGISTERING`
(`register_client` with a retry budget of one attempt, as the locally
derived credential is never empty) reaches `REGISTERED` exactly when the
response status is `accepted`, the server-returned credential equals the
locally derived one, no required field is missing, and `monitor_items`
contains all four monitor families; a transport failure, an accepted
response with a missing required field, or a credential mismatch drives the
state to `ERROR` instead. -/
theorem C3_registration_attempt :
    ∀ (sm : StateManager) (r : RegisterHttp) (my_token new_id : String) (now : Int),
      sm.state = ClientState.registering →
      my_token ≠ "" →
      ((main_registration_step my_token new_id now [r] 1 sm).state
          = ClientState.registered ↔
        ∃ config, r = RegisterHttp.ok (some config) ∧
          config.status = some "accepted" ∧
          config.auth_token = some my_token ∧
          missing_required_fields config = false ∧
          missing_monitors config = []) ∧
      (r = RegisterHttp.request_exception →
        (main_registration_step my_token new_id now [r] 1 sm).state
          = ClientState.error) ∧
      (∀ config, r = RegisterHttp.ok (some config) →
        config.status = some "accepted" →
        missing_required_fields config = true →
        (main_registration_step my_token new_id now [r] 1 sm).state
          = ClientState.error) ∧
      (∀ config server_token, r = RegisterHttp.ok (some config) →
        config.status = some "accepted" →
        config.auth_token = some server_token →
        server_token ≠ my_token →
        (main_registration_step my_token new_id now [r] 1 sm).state
          = ClientState.error) := by
  intro sm r my_token new_id now hstate htok
  refine ⟨?_, ?_, ?_, ?_⟩
  · rw [main_registration_step_single]
    cases r with
    | request_exception =>
      simp [register_attempt, StateManager.set_state_state]
    | http_error code =>
      simp [register_attempt, StateManager.set_state_state]
    | forbidden error_code =>
      by_cases hec : error_code = some "DEVICE_DELETED"
      · simp [register_attempt, hec, StateManager.handle_device_deleted_response_state]
      · simp [register_attempt, hec, StateManager.set_state_state]
    | ok body =>
      cases body with
      | none => simp [register_attempt, StateManager.set_state_state]
      | some config =>
        by_cases hp : config.status = some "pending"
        · simp [register_attempt, hp, StateManager.set_state_state]
        · by_cases hrj : config.status = some "rejected"
          · rw [show register_attempt my_token new_id now
                  (RegisterHttp.ok (some config)) sm
                = (some (some (RegisterReturn.rejected (config.message.getD "未知原因"))),
                   sm) from by simp [register_attempt, hp, hrj]]
            simp [hstate, hrj]
          · by_cases hd : config.status = some "deleted"
            · rw [show register_attempt my_token new_id now
                    (RegisterHttp.ok (some config)) sm
                  = (some (some RegisterReturn.deleted),
                     sm.handle_device_deleted_response new_id now) from by
                simp [register_attempt, hp, hrj, hd]]
              simp [StateManager.handle_device_deleted_response_state, hd]
            · by_cases ha : config.status = some "accepted"
              · by_cases h0 : config.auth_token.getD "" = ""
                · rw [show register_attempt my_token new_id now
                        (RegisterHttp.ok (some config)) sm = (some none, sm) from by
                    simp [register_attempt, hp, hrj, hd, ha, h0]]
                  simp only [StateManager.set_state_state]
                  constructor
                  · intro h; cases h
                  · rintro ⟨config', heq, -, htok2, -, -⟩
                    rw [RegisterHttp.ok.injEq, Option.some.injEq] at heq
                    subst heq
                    rw [htok2] at h0
                    simp at h0
                    exact absurd h0 htok
                · by_cases h1 : config.auth_token.getD "" ≠ my_token
                  · rw [show register_attempt my_token new_id now
                          (RegisterHttp.ok (some config)) sm = (some none, sm) from by
                      simp only [register_attempt, if_neg hp, if_neg hrj, if_neg hd,
                        if_pos ha, if_neg h0, if_pos h1]]
                    simp only [StateManager.set_state_state]
                    constructor
                    · intro h; cases h
                    · rintro ⟨config', heq, -, htok2, -, -⟩
                      rw [RegisterHttp.ok.injEq, Option.some.injEq] at heq
                      subst heq
                      rw [htok2] at h1
                      simp at h1
                  · push_neg at h1
                    have hat : config.auth_token = some my_token := by
                      cases hca : config.auth_token with
                      | none => rw [hca] at h0; simp at h0
                      | some t =>
                        rw [hca] at h1
                        simp at h1
                        rw [h1]
                    by_cases hmf : missing_required_fields config = true
                    · rw [show register_attempt my_token new_id now
                            (RegisterHttp.ok (some config)) sm = (some none, sm) from by
                        simp only [register_attempt, if_neg hp, if_neg hrj, if_neg hd,
                          if_pos ha, if_neg h0, if_neg (not_not_intro h1), if_pos hmf]]
                      simp only [StateManager.set_state_state]
                      constructor
                      · intro h; cases h
                      · rintro ⟨config', heq, -, -, hmf2, -⟩
                        rw [RegisterHttp.ok.injEq, Option.some.injEq] at heq
                        subst heq
                        rw [hmf] at hmf2
                        cases hmf2
                    · by_cases hmon : missing_monitors config ≠ []
                      · rw [show register_attempt my_token new_id now
                              (RegisterHttp.ok (some config)) sm = (some none, sm) from by
                          simp only [register_attempt, if_neg hp, if_neg hrj, if_neg hd,
                            if_pos ha, if_neg h0, if_neg (not_not_intro h1),
                            if_neg hmf, if_pos hmon]]
                        simp only [StateManager.set_state_state]
                        constructor
                        · intro h; cases h
                        · rintro ⟨config', heq, -, -, -, hmon2⟩
                          rw [RegisterHttp.ok.injEq, Option.some.injEq] at heq
                          subst heq
                          exact (hmon hmon2).elim
                      · push_neg at hmon
                        rw [show register_attempt my_token new_id now
                              (RegisterHttp.ok (some config)) sm
                            = (some (some (RegisterReturn.accepted
                                { server_id := config.server_id.getD ""
                                  report_url := config.report_url.getD ""
                                  report_interval := config.report_interval.getD 0
                                  monitor_items := config.monitor_items.getD []
                                  is_active := config.is_active.getD true
                                  auth_token := config.auth_token.getD ""
                                  message := config.message.getD "注册成功" })), sm) from by
                          simp only [register_attempt, if_neg hp, if_neg hrj, if_neg hd,
                            if_pos ha, if_neg h0, if_neg (not_not_intro h1),
                            if_neg hmf, if_neg (not_not_intro hmon)]]
                        simp only [StateManager.set_state_state]
                        constructor
                        · intro _
                          exact ⟨config, rfl, ha, hat, by simpa using hmf, hmon⟩
                        · intro _; trivial
              · rw [show register_attempt my_token new_id now
                      (RegisterHttp.ok (some config)) sm = (some none, sm) from by
                  simp only [register_attempt, if_neg hp, if_neg hrj, if_neg hd,
                    if_neg ha]]
                simp only [StateManager.set_state_state]
                constructor
                · intro h; cases h
                · rintro ⟨config', heq, ha2, -, -, -⟩
                  rw [RegisterHttp.ok.injEq, Option.some.injEq] at heq
                  subst heq
                  exact (ha ha2).elim
  · intro h
    subst h
    rw [main_registration_step_single]
    simp [register_attempt, StateManager.set_state_state]
  · intro config h ha hmf
    subst h
    rw [main_registration_step_single]
    have hp : ¬(config.status = some "pending") := by rw [ha]; simp
    have hrj : ¬(config.status = some "rejected") := by rw [ha]; simp
    have hd : ¬(config.status = some "deleted") := by rw [ha]; simp
    by_cases h0 : config.auth_token.getD "" = ""
    · rw [show register_attempt my_token new_id now
            (RegisterHttp.ok (some config)) sm = (some none, sm) from by
        simp only [register_attempt, if_neg hp, if_neg hrj, if_neg hd, if_pos ha,
          if_pos h0]]
      exact StateManager.set_state_state sm now ClientState.error
    · by_cases h1 : config.auth_token.getD "" ≠ my_token
      · rw [show register_attempt my_token new_id now
              (RegisterHttp.ok (some config)) sm = (some none, sm) from by
          simp only [register_attempt, if_neg hp, if_neg hrj, if_neg hd, if_pos ha,
            if_neg h0, if_pos h1]]
        exact StateManager.set_state_state sm now ClientState.error
      · rw [show register_attempt my_token new_id now
              (RegisterHttp.ok (some config)) sm = (some none, sm) from by
          simp only [register_attempt, if_neg hp, if_neg hrj, if_neg hd, if_pos ha,
            if_neg h0, if_neg h1, if_pos hmf]]
        exact StateManager.set_state_state sm now ClientState.error
  · intro config server_token h ha hat hne
    subst h
    rw [main_registration_step_single]
    have hp : ¬(config.status = some "pending") := by rw [ha]; simp
    have hrj : ¬(config.status = some "rejected") := by rw [ha]; simp
    have hd : ¬(config.status = some "deleted") := by rw [ha]; simp
    have hgd : config.auth_token.getD "" = server_token := by rw [hat]; rfl
    by_cases h0 : server_token = ""
    · rw [show register_attempt my_token new_id now
            (RegisterHttp.ok (some config)) sm = (some none, sm) from by
        simp only [register_attempt, if_neg hp, if_neg hrj, if_neg hd, if_pos ha, hgd,
          if_pos h0]]
      exact StateManager.set_state_state sm now ClientState.error
    · rw [show register_attempt my_token new_id now
            (RegisterHttp.ok (some config)) sm = (some none, sm) from by
        simp only [register_attempt, if_neg hp, if_neg hrj, if_neg hd, if_pos ha, hgd,
          if_neg h0, if_pos hne]]
      exact StateManager.set_state_state sm now ClientState.error

theorem C3_registration_attempt_witness :
    (main_registration_step "tok" "nid" 0 [RegisterHttp.request_exception] 1
      (⟨ClientState.registering, 0, 0, 0, some "u", false, none,
        DEFAULT_CONFIG⟩ : StateManager)).state = ClientState.error :=
  (C3_registration_attempt
    (⟨ClientState.registering, 0, 0, 0, some "u", false, none, DEFAULT_CONFIG⟩ : StateManager)
    RegisterHttp.request_exception "tok" "nid" 0 rfl (by decide)).2.1 rfl

/-- The base-64 alphabet never produces the padding character. -/
theorem Crypto.b64Char_ne_pad (n : Nat) : Crypto.b64Char n ≠ '=' := by
  unfold Crypto.b64Char
  by_cases h : n < 64
  · have hall : ∀ i, i < 64 → Crypto.b64Table.getD i 'A' ≠ '=' := by decide
    exact hall n h
  · rw [List.getD_eq_default]
    · decide
    · have h64 : Crypto.b64Table.length = 64 := by decide
      omega

/-- Stripping `'='` from a list that contains a non-`'='` character leaves a
non-empty list. -/
theorem Crypto.rstripEq_ne_nil {cs : List Char} {c : Char}
    (hc : c ∈ cs) (hne : c ≠ '=') : Crypto.rstripEq cs ≠ [] := by
  unfold Crypto.rstripEq
  intro h
  rw [List.reverse_eq_nil_iff, List.dropWhile_eq_nil_iff] at h
  have := h c (by simpa using hc)
  simp only [beq_iff_eq] at this
  exact hne this

/-- A SHA-256 digest starts with at least three bytes, the first of which is
below 256. -/
theorem Crypto.sha256_shape (msg : List Nat) :
    ∃ b0 b1 b2 rest, Crypto.sha256 msg = b0 :: b1 :: b2 :: rest ∧ b0 ≤ 255 := by
  unfold Crypto.sha256 Crypto.wordBytes
  exact ⟨_, _, _, _, rfl, Nat.and_le_right⟩

/-- An HMAC-SHA256 digest has the same shape for every key and message. -/
theorem Crypto.hmac_sha256_shape (key msg : List Nat) :
    ∃ b0 b1 b2 rest, Crypto.hmac_sha256 key msg = b0 :: b1 :: b2 :: rest ∧ b0 ≤ 255 := by
  unfold Crypto.hmac_sha256
  exact Crypto.sha256_shape _

set_option maxRecDepth 1000000 in
/-- C9 counterexample: with the shared secret unset (the empty string, the
default when the environment variable is missing), `generate_token` does not
return an empty or special credential — it returns the ordinary non-empty
HMAC-SHA256 token computed with the empty key (the value below matches
`hmac.new(b"", b"a", sha256)`), and nothing in the code marks that token as
invalid or detects the unset secret. -/
theorem C9_token_counterexample :
    generate_token "" "a" = "lhWpXUozYRjENbnNVMXoZEq5VrVzqikmJ0oSgLZnRxM" ∧
    generate_token "" "a" ≠ "" := by
  have h : generate_token "" "a" = "lhWpXUozYRjENbnNVMXoZEq5VrVzqikmJ0oSgLZnRxM" := by
    decide
  refine ⟨h, ?_⟩
  rw [h]
  decide

/-- C9 (amended): `generate_token` is a total, deterministic Lean function
(the embedding has no exceptions or side effects), and an unset (empty)
shared secret is not a detectable failure case: for every identifier the
function still returns a non-empty credential — the ordinary HMAC-SHA256
token computed with the empty key. -/
theorem C9_token_empty_secret_total :
    ∀ uuid_str : String, generate_token "" uuid_str ≠ "" := by
  intro u h
  simp only [generate_token] at h
  obtain ⟨b0, b1, b2, rest, hsh, hb0⟩ :=
    Crypto.hmac_sha256_shape (Crypto.utf8Bytes "") (Crypto.utf8Bytes u)
  rw [hsh] at h
  have hdata : Crypto.rstripEq (Crypto.b64encode (b0 :: b1 :: b2 :: rest)) = [] :=
    congrArg String.data h
  have hmem : Crypto.b64Char (b0 >>> 2) ∈ Crypto.b64encode (b0 :: b1 :: b2 :: rest) := by
    rw [show Crypto.b64encode (b0 :: b1 :: b2 :: rest)
        = Crypto.b64Char (b0 >>> 2)
          :: Crypto.b64Char (((b0 &&& 3) <<< 4) ||| (b1 >>> 4))
          :: Crypto.b64Char (((b1 &&& 15) <<< 2) ||| (b2 >>> 6))
          :: Crypto.b64Char (b2 &&& 63) :: Crypto.b64encode rest from rfl]
    exact List.mem_cons_self _ _
  exact Crypto.rstripEq_ne_nil hmem (Crypto.b64Char_ne_pad _) hdata

theorem C9_token_empty_secret_total_witness :
    generate_token "" "3f2c8a10-aaaa-bbbb-cccc-1234567890ab" ≠ "" :=
  C9_token_empty_secret_total "3f2c8a10-aaaa-bbbb-cccc-1234567890ab"

end ServerStatus

